import Mathlib

/-!
A shallow embedding of the type-checking walker in
src/server/src/analyzer/typeAnalyzer.ts, together with proofs about the
walker validations: return and yield contracts, reachability skipping,
the unnecessary isinstance test, TypedDict suite purity, the unused
symbol sweep and method shape validation.

External collaborators of the walker (the expression evaluator, the type
lattice in types.ts and typeUtils.ts, the symbol name utilities) are not
under src; where the walker calls them they are either taken as function
parameters (canAssignType, specializeType) or modelled from the spec, as
marked on each definition.
-/

namespace Pyright

/-- The type representation used by the checker (spec section 3): unknown,
any, none, never, class, object-of-class and union. A class carries a
stable identity, an optional builtin name and optional type arguments;
the lattice compares classes nominally on identity and structurally on
type arguments. -/
inductive PType : Type where
  | unknown : PType
  | anyT : PType
  | noneT : PType
  | never : PType
  | cls (id : Nat) (builtinName : Option String) (typeArgs : Option (List PType)) : PType
  | obj (id : Nat) (builtinName : Option String) (typeArgs : Option (List PType)) : PType
  | union (subtypes : List PType) : PType

/-- A class type value as handled by ClassType helpers (identity, builtin
name, type arguments). -/
structure ClassT where
  id : Nat
  builtinName : Option String
  typeArgs : Option (List PType)

/-- The class as a first-class value (TypeCategory.Class). -/
def ClassT.toClsType (c : ClassT) : PType := PType.cls c.id c.builtinName c.typeArgs

/-- ObjectType.create: an instance of the class (TypeCategory.Object). -/
def ClassT.toObjType (c : ClassT) : PType := PType.obj c.id c.builtinName c.typeArgs

mutual

/-- Modelled from the spec: isTypeSame is structural equality on types
(spec section 4.1). -/
def isTypeSame : PType → PType → Bool
  | .unknown, .unknown => true
  | .anyT, .anyT => true
  | .noneT, .noneT => true
  | .never, .never => true
  | .cls i1 b1 a1, .cls i2 b2 a2 => i1 == i2 && b1 == b2 && typeArgsSame a1 a2
  | .obj i1 b1 a1, .obj i2 b2 a2 => i1 == i2 && b1 == b2 && typeArgsSame a1 a2
  | .union s1, .union s2 => typeListSame s1 s2
  | _, _ => false

/-- Structural equality on optional type argument lists. -/
def typeArgsSame : Option (List PType) → Option (List PType) → Bool
  | none, none => true
  | some l1, some l2 => typeListSame l1 l2
  | _, _ => false

/-- Structural equality on type lists, pointwise and length-strict. -/
def typeListSame : List PType → List PType → Bool
  | [], [] => true
  | a :: as, b :: bs => isTypeSame a b && typeListSame as bs
  | _, _ => false

end

/-- True on the Any and Unknown categories only. -/
def atomAnyOrUnknown : PType → Bool
  | .anyT => true
  | .unknown => true
  | _ => false

/-- Modelled from the spec: the Any or Unknown wildcard test used by the
walker. On a union it asks that every member be a wildcard; unions are
canonical (no nested unions, spec section 3), so one level of members
suffices. -/
def isAnyOrUnknown (t : PType) : Bool :=
  match t with
  | .union subtypes => subtypes.all atomAnyOrUnknown
  | t => atomAnyOrUnknown t

/-- True exactly on the Never category. -/
def isNeverCategory : PType → Bool
  | .never => true
  | _ => false

/-- Modelled from the spec: isNoReturnType recognizes the NoReturn
designator, an object of the builtin class named NoReturn (spec sections
3 and 4.5). -/
def isNoReturnType : PType → Bool
  | .obj _ (some "NoReturn") _ => true
  | _ => false

/-- The members of a union, or the type itself when it is not a union. -/
def typeSubtypes : PType → List PType
  | .union subtypes => subtypes
  | t => [t]

/-- Modelled from the spec: combineTypes builds the canonical union: no
nested unions, Never members dropped (Never is the identity of union),
structural duplicates removed, a singleton collapses to its element and
an empty combination is Never (spec sections 3 and 4.1). -/
def combineTypes (types : List PType) : PType :=
  let expanded := types.flatMap typeSubtypes
  let filtered := expanded.filter (fun t => !(isNeverCategory t))
  let deduped := filtered.foldl
    (fun acc t => if acc.any (fun u => isTypeSame u t) then acc else acc ++ [t]) []
  match deduped with
  | [] => PType.never
  | [t] => t
  | ts => PType.union ts

/-- Modelled from the spec: doForSubtypes maps a function over the union
members and recombines; on a non-union it applies the function directly
(spec section 4.1). -/
def doForSubtypes (f : PType → PType) (t : PType) : PType :=
  match t with
  | .union subtypes => combineTypes (subtypes.map f)
  | t => f t

/-- Modelled from the spec: transformTypeObjectToClass turns an object
whose class is the builtin Type, specialized to an object of C, into the
class C itself; every other type passes through (spec section 4.1). -/
def transformTypeObjectToClass : PType → PType
  | PType.obj _ (some "Type") (some [PType.obj ci cb ca]) => PType.cls ci cb ca
  | t => t

/-- The string prefix test (startsWith), computed on the character
lists. -/
def strStartsWith (s pre : String) : Bool := pre.data.isPrefixOf s.data

/-- The string suffix test (endsWith), computed on the character
lists. -/
def strEndsWith (s post : String) : Bool := post.data.isSuffixOf s.data

/-- Modelled from the spec: a name starts with the private prefix, a
double underscore (spec section 4.5.6). -/
def isPrivateName (n : String) : Bool := strStartsWith n "__"

/-- Modelled from the spec: a name starts with the protected prefix, a
single underscore (spec section 4.5.6). -/
def isProtectedName (n : String) : Bool := strStartsWith n "_"

/-- Modelled from the spec: the reserved double underscore (dunder)
pattern excluded from the unused symbol sweep (spec section 4.5.1). -/
def isDunderName (n : String) : Bool := strStartsWith n "__" && strEndsWith n "__"

/-! ## visitReturn (typeAnalyzer.ts lines 281 to 323) -/

/-- The inputs visitReturn draws from the node and its collaborators: the
evaluator type of the return expression (absent for a bare return), the
evaluator reachability of the node, whether an enclosing function exists
and its declared return type if any. -/
structure ReturnNodeM where
  returnExprType : Option PType
  isNodeReachable : Bool
  hasEnclosingFunction : Bool
  declaredReturnType : Option PType

/-- The diagnostics visitReturn can add: the NoReturn error, or the
return type mismatch citing the returned type, the specialized declared
type and the addendum produced by canAssignType. -/
inductive ReturnDiag : Type where
  | noReturnHasReturn : ReturnDiag
  | returnTypeMismatch (returned : PType) (specializedDeclared : PType)
      (addendum : List String) : ReturnDiag

/-- visitReturn, shallowly embedded. canAssign and canAssignAddendum
stand for canAssignType and the diagnostic addendum it fills in;
specialize stands for specializeType with an absent type variable map.
Both live in typeUtils.ts, outside src. -/
def visitReturn (canAssign : PType → PType → Bool)
    (canAssignAddendum : PType → PType → List String)
    (specialize : PType → PType) (node : ReturnNodeM) : List ReturnDiag :=
  let returnType := match node.returnExprType with
    | some t => t
    | none => PType.noneT
  if node.isNodeReachable && node.hasEnclosingFunction then
    match node.declaredReturnType with
    | some declaredReturnType =>
      if isNoReturnType declaredReturnType then
        [ReturnDiag.noReturnHasReturn]
      else
        let specializedDeclaredType := specialize declaredReturnType
        if canAssign specializedDeclaredType returnType then []
        else [ReturnDiag.returnTypeMismatch returnType specializedDeclaredType
          (canAssignAddendum specializedDeclaredType returnType)]
    | none => []
  else []

/-! ## walk and the reachability gate (typeAnalyzer.ts lines 110 to 114
and 1020 to 1034) -/

/-- A parse node for the reachability model: an identity, an optional
flow node flag (some b when a flow node is attached, with b true when
its flags carry Unreachable), the diagnostics a visit of this node would
emit, and the children in parse order. -/
inductive WNode : Type where
  | mk (nid : Nat) (flowFlag : Option Bool) (ownDiags : List Nat)
      (children : List WNode) : WNode

/-- The Unreachable bit of the flow node nearest to this node: its own
if attached, otherwise the nearest one among its ancestors, given as
inherited (false when no ancestor carries a flow node). -/
def WNode.nearestFlowUnreachable : WNode → Bool → Bool
  | .mk _ (some b) _ _, _ => b
  | .mk _ none _ _, inherited => inherited

/-- The embedding of the private helper that walks up the parse tree to
the first flow node and reports its Unreachable flag; false when there
is none. -/
def isCodeUnreachable (node : WNode) (inherited : Bool) : Bool :=
  node.nearestFlowUnreachable inherited

mutual

/-- The overridden walk: skip the node entirely when its code is
unreachable, otherwise visit it (collect its identity and diagnostics)
and walk the children. Returns the visited node identities and the
emitted diagnostics. -/
def walkNode : WNode → Bool → List Nat × List Nat
  | .mk nid flowFlag ownDiags children, inherited =>
    if isCodeUnreachable (.mk nid flowFlag ownDiags children) inherited then ([], [])
    else
      let rest := walkNodeList children
        (WNode.nearestFlowUnreachable (.mk nid flowFlag ownDiags children) inherited)
      (nid :: rest.1, ownDiags ++ rest.2)

/-- walkMultiple over a child list, left to right. -/
def walkNodeList : List WNode → Bool → List Nat × List Nat
  | [], _ => ([], [])
  | c :: cs, inherited =>
    let r1 := walkNode c inherited
    let r2 := walkNodeList cs inherited
    (r1.1 ++ r2.1, r1.2 ++ r2.2)

end

/-! ## visitYield, visitYieldFrom and the yield validation
(typeAnalyzer.ts lines 325 to 349 and 1307 to 1341) -/

/-- The inputs of visitYield: the evaluator type of the yielded
expression (absent for a bare yield), the evaluator reachability of the
node, and the declared yield type of the enclosing function as computed
by getDeclaredGeneratorYieldType (absent when there is no enclosing
function, no function type or no declared yield type). -/
structure YieldNodeM where
  yieldExprType : Option PType
  isNodeReachable : Bool
  declaredYieldType : Option PType

/-- The inputs of visitYieldFrom: the evaluator type of the operand
expression, reachability and the declared yield type, as above. -/
structure YieldFromNodeM where
  operandType : PType
  isNodeReachable : Bool
  declaredYieldType : Option PType

/-- The diagnostics the yield validation can add: the NoReturn error, or
the yield type mismatch citing the adjusted yield type, the declared
yield type and the addendum from canAssignType. -/
inductive YieldDiag : Type where
  | noReturnHasYield : YieldDiag
  | yieldTypeMismatch (adjustedYield : PType) (declaredYield : PType)
      (addendum : List String) : YieldDiag

/-- The private yield validation: on a reachable node with a declared
yield type, a NoReturn declared yield forbids the yield outright, and
otherwise canAssignType(declaredYield, adjustedYield) is required. -/
def validateYieldType (canAssign : PType → PType → Bool)
    (canAssignAddendum : PType → PType → List String)
    (isNodeReachable : Bool) (declaredYieldType : Option PType)
    (adjustedYieldType : PType) : List YieldDiag :=
  if isNodeReachable then
    match declaredYieldType with
    | some declaredYield =>
      if isNoReturnType declaredYield then
        [YieldDiag.noReturnHasYield]
      else if canAssign declaredYield adjustedYieldType then []
      else [YieldDiag.yieldTypeMismatch adjustedYieldType declaredYield
        (canAssignAddendum declaredYield adjustedYieldType)]
    | none => []
  else []

/-- visitYield: the yielded type (None when the expression is absent) is
wrapped as an object of the builtin Iterator class specialized to it
(cloneForSpecialization replaces the type arguments); when the Iterator
lookup does not produce a class the adjusted type is Unknown. The result
goes through the yield validation. iteratorType stands for the
getBuiltInType lookup of Iterator. -/
def visitYieldM (canAssign : PType → PType → Bool)
    (canAssignAddendum : PType → PType → List String)
    (iteratorType : PType) (node : YieldNodeM) : List YieldDiag :=
  let yieldType := match node.yieldExprType with
    | some t => t
    | none => PType.noneT
  let adjYieldType := match iteratorType with
    | PType.cls i b _ => PType.obj i b (some [yieldType])
    | _ => PType.unknown
  validateYieldType canAssign canAssignAddendum node.isNodeReachable
    node.declaredYieldType adjYieldType

/-- visitYieldFrom: the operand type goes to the yield validation
unwrapped. -/
def visitYieldFromM (canAssign : PType → PType → Bool)
    (canAssignAddendum : PType → PType → List String)
    (node : YieldFromNodeM) : List YieldDiag :=
  validateYieldType canAssign canAssignAddendum node.isNodeReachable
    node.declaredYieldType node.operandType

/-! ## TypedDict suite validation (typeAnalyzer.ts lines 995 to 1018) -/

/-- The statement kinds distinguished inside a statement list of a
TypedDict class suite. -/
inductive SmallKind : Type where
  | typeAnnotationK : SmallKind
  | ellipsisK : SmallKind
  | stringListK : SmallKind
  | passK : SmallKind
  | otherK : SmallKind
deriving DecidableEq

/-- A substatement of a statement list, with an identity for counting
emitted errors. -/
structure SmallStmt where
  sid : Nat
  kind : SmallKind

/-- A top level statement of a class suite: either a statement list of
substatements or a compound statement (with an identity). -/
inductive TDBody : Type where
  | statementList (subs : List SmallStmt) : TDBody
  | compound (cid : Nat) : TDBody

/-- A suite statement together with its reachability gate, the result of
isCodeUnreachable on the statement. -/
structure TDStatement where
  unreachable : Bool
  body : TDBody

/-- The statement identities of one suite statement. -/
def tdStatementIds : TDStatement → List Nat
  | ⟨_, .statementList subs⟩ => subs.map SmallStmt.sid
  | ⟨_, .compound cid⟩ => [cid]

/-- All statement identities of a suite. -/
def tdSuiteIds (suite : List TDStatement) : List Nat :=
  suite.flatMap tdStatementIds

/-- The embedding of the private TypedDict suite validation: for each
statement that is not unreachable, a statement list yields one bad
statement error per substatement that is not a type annotation, an
ellipsis, a string list or a pass, and any other statement kind yields
one error on the statement itself. The result lists the identities of
the statements the error was emitted on. -/
def validateTypedDictClassSuite (suite : List TDStatement) : List Nat :=
  suite.flatMap fun statement =>
    if statement.unreachable then []
    else match statement.body with
      | .statementList subs =>
        subs.flatMap fun substatement =>
          if substatement.kind != SmallKind.typeAnnotationK &&
              substatement.kind != SmallKind.ellipsisK &&
              substatement.kind != SmallKind.stringListK &&
              substatement.kind != SmallKind.passK then
            [substatement.sid]
          else []
      | .compound cid => [cid]

/-- The statement kinds the claim allows in a TypedDict suite: type
annotations, docstrings, ellipses and pass statements. -/
def allowedInTypedDict : SmallKind → Bool
  | .typeAnnotationK => true
  | .ellipsisK => true
  | .stringListK => true
  | .passK => true
  | .otherK => false

/-- The error sites one suite statement should get per the claim: none
when unreachable, one per substatement of a disallowed kind in a
statement list, one for any other statement form. -/
def tdStatementSpecErrors (statement : TDStatement) : List Nat :=
  if statement.unreachable then []
  else match statement.body with
    | .statementList subs =>
      (subs.filter fun ss => !(allowedInTypedDict ss.kind)).map SmallStmt.sid
    | .compound cid => [cid]

/-! ## The unused symbol sweep (typeAnalyzer.ts lines 600 to 728 and
874 to 893) -/

/-- A diagnostic level from the configuration. -/
inductive DiagLevel : Type where
  | dnone : DiagLevel
  | dwarning : DiagLevel
  | derror : DiagLevel
deriving DecidableEq

/-- The diagnostic settings the sweep consults. -/
structure UnusedDiagSettings where
  reportUnusedImport : DiagLevel
  reportUnusedVariable : DiagLevel
  reportUnusedClass : DiagLevel
  reportUnusedFunction : DiagLevel

/-- The scope types (scope.ts). -/
inductive ScopeTypeM : Type where
  | moduleScope : ScopeTypeM
  | classScope : ScopeTypeM
  | functionScope : ScopeTypeM
  | listComprehensionScope : ScopeTypeM
deriving DecidableEq

/-- The declaration types the sweep switches on (declaration.ts). -/
inductive DeclTypeM : Type where
  | aliasD : DeclTypeM
  | variableD : DeclTypeM
  | parameterD : DeclTypeM
  | functionD : DeclTypeM
  | methodD : DeclTypeM
  | classD : DeclTypeM
deriving DecidableEq

/-- The parse node kinds the sweep distinguishes on a declaration node. -/
inductive DeclNodeKindM : Type where
  | importAsK : DeclNodeKindM
  | importFromAsK : DeclNodeKindM
  | nameK : DeclNodeKindM
  | classK : DeclNodeKindM
  | functionK : DeclNodeKindM
  | otherK : DeclNodeKindM
deriving DecidableEq

/-- The fields of a declaration node the sweep reads: the node kind, the
name (the name token value of a name node, or the name of a class or
function node), the alias of an import node, and the module name parts
(of the node itself for import-as, of the parent import-from for
import-from-as). -/
structure DeclNodeM where
  kind : DeclNodeKindM
  name : String
  aliasName : Option String
  moduleNameParts : List String

/-- A declaration: its type tag and its parse node. -/
structure MDecl where
  dtype : DeclTypeM
  node : DeclNodeM

/-- The reports the sweep can produce, each carrying the diagnostic
level it would be emitted at. -/
inductive UnusedReport : Type where
  | unusedImport (level : DiagLevel) (name : String) : UnusedReport
  | unusedImportMultipart (level : DiagLevel) (dottedParts : List String) : UnusedReport
  | unusedVariable (level : DiagLevel) (name : String) : UnusedReport
  | unusedClass (level : DiagLevel) (name : String) : UnusedReport
  | unusedFunction (level : DiagLevel) (name : String) : UnusedReport
deriving DecidableEq

/-- The embedding of the private per declaration report. Alias
declarations: an import-as node reports under its alias when present,
and otherwise under the dotted multipart name when the module name parts
are nonempty; an import-from-as node reports unless its from-module
name is nonempty and either starts with the __future__ module or the
file path ends with the generated code suffix. Variable and parameter
declarations report only when private and only on a name node; class
and function declarations report only when private. Every other
declaration type is skipped. -/
def conditionallyReportUnusedDeclaration (settings : UnusedDiagSettings)
    (filePath : String) (decl : MDecl) (isPrivate : Bool) : List UnusedReport :=
  match decl.dtype with
  | .aliasD =>
    match decl.node.kind with
    | .importAsK =>
      match decl.node.aliasName with
      | some aliasValue =>
        [UnusedReport.unusedImport settings.reportUnusedImport aliasValue]
      | none =>
        match decl.node.moduleNameParts with
        | [] => []
        | parts =>
          [UnusedReport.unusedImportMultipart settings.reportUnusedImport parts]
    | .importFromAsK =>
      if decl.node.moduleNameParts.isEmpty ||
          (decl.node.moduleNameParts.headD "" != "__future__" &&
            !(strEndsWith filePath "_pb2.py")) then
        [UnusedReport.unusedImport settings.reportUnusedImport
          (decl.node.aliasName.getD decl.node.name)]
      else []
    | _ => []
  | .variableD =>
    if !isPrivate then []
    else if decl.node.kind == DeclNodeKindM.nameK then
      [UnusedReport.unusedVariable settings.reportUnusedVariable decl.node.name]
    else []
  | .parameterD =>
    if !isPrivate then []
    else if decl.node.kind == DeclNodeKindM.nameK then
      [UnusedReport.unusedVariable settings.reportUnusedVariable decl.node.name]
    else []
  | .classD =>
    if !isPrivate then []
    else [UnusedReport.unusedClass settings.reportUnusedClass decl.node.name]
  | .functionD =>
    if !isPrivate then []
    else [UnusedReport.unusedFunction settings.reportUnusedFunction decl.node.name]
  | .methodD => []

/-- The embedding of the private symbol privacy test: every symbol in a
function or list comprehension scope is private; otherwise a name with
the private prefix is private, and a name with the protected prefix is
private exactly outside a class scope. -/
def isSymbolPrivate (nameValue : String) (scopeType : ScopeTypeM) : Bool :=
  if scopeType == ScopeTypeM.functionScope ||
      scopeType == ScopeTypeM.listComprehensionScope then true
  else if isPrivateName nameValue then true
  else if isProtectedName nameValue then !(scopeType == ScopeTypeM.classScope)
  else false

/-- The privacy rule as the claim and spec section 4.5.6 word it: a name
is private exactly when it starts with the private prefix, or starts
with the protected prefix and is not inside a class scope. -/
def claimIsPrivate (nameValue : String) (scopeType : ScopeTypeM) : Bool :=
  isPrivateName nameValue ||
    (isProtectedName nameValue && !(scopeType == ScopeTypeM.classScope))

/-- A symbol: its stable identity, the protocol match exclusion flag and
its declarations. -/
structure MSymbol where
  symId : Nat
  ignoredForProtocolMatch : Bool
  decls : List MDecl

/-- The embedding of the private per symbol report: skip symbols in the
accessed set or excluded from protocol match, the name written as a
single underscore, and dunder names; otherwise report each declaration
with the privacy of the symbol in its scope. -/
def conditionallyReportUnusedSymbol (settings : UnusedDiagSettings)
    (filePath : String) (accessedSymbolIds : List Nat) (name : String)
    (symbol : MSymbol) (scopeType : ScopeTypeM) : List UnusedReport :=
  if symbol.ignoredForProtocolMatch || accessedSymbolIds.contains symbol.symId then []
  else if name == "_" then []
  else if isDunderName name then []
  else symbol.decls.flatMap fun decl =>
    conditionallyReportUnusedDeclaration settings filePath decl
      (isSymbolPrivate name scopeType)

/-- A scoped node recorded during walking: its scope type and symbol
table. -/
structure MScope where
  scopeType : ScopeTypeM
  symbols : List (String × MSymbol)

/-- The embedding of the post convergence symbol table validation: never
report in stub files; otherwise sweep every symbol of every recorded
scope. -/
def validateSymbolTables (isStubFile : Bool) (settings : UnusedDiagSettings)
    (filePath : String) (accessedSymbolIds : List Nat)
    (scopedNodes : List MScope) : List UnusedReport :=
  if isStubFile then []
  else scopedNodes.flatMap fun scope =>
    scope.symbols.flatMap fun entry =>
      conditionallyReportUnusedSymbol settings filePath accessedSymbolIds
        entry.1 entry.2 scope.scopeType

/-! ## Method shape validation (typeAnalyzer.ts lines 1229 to 1305) -/

/-- The parameter categories (parseNodes.ts). -/
inductive ParamCategoryM : Type where
  | simple : ParamCategoryM
  | varArgList : ParamCategoryM
  | varArgDictionary : ParamCategoryM
deriving DecidableEq

/-- A function parameter node: its optional name and its category. -/
structure MParam where
  pname : Option String
  category : ParamCategoryM

/-- The function node fields the method validation reads: the name, the
parameters and the number of decorators. -/
structure MFunctionNode where
  fname : String
  parameters : List MParam
  decoratorCount : Nat

/-- The function type flags the method validation reads. -/
structure MFunctionTypeFlags where
  isStaticMethod : Bool
  isClassMethod : Bool

/-- The errors the method validation can add. -/
inductive MethodDiag : Type where
  | newShouldTakeCls : MethodDiag
  | initSubclassShouldTakeCls : MethodDiag
  | staticShouldNotTakeSelfOrCls : MethodDiag
  | classShouldTakeCls : MethodDiag
  | instanceShouldTakeSelf : MethodDiag
deriving DecidableEq

/-- The first parameter name defaulted to the empty string when the
parameter or its name is absent, as the source initializes paramName. -/
def defaultedFirstParamName (node : MFunctionNode) : String :=
  (node.parameters.head?.bind MParam.pname).getD ""

/-- Whether the first parameter counts as simple: the source starts from
true and clears it only when a first parameter exists with a category
other than simple. -/
def firstParamIsSimpleB (node : MFunctionNode) : Bool :=
  match node.parameters.head? with
  | some p => p.category == ParamCategoryM.simple
  | none => true

/-- The embedding of the private method validation, applied to each
function lexically enclosed by a class: the dunder new and init
subclass overrides need a cls (or mcs for new) first parameter; a
static method must not name its first parameter self or cls; a class
method needs a cls first parameter (with stub file exemptions for an
underscore prefix and metacls); otherwise, with no decorators, an
instance method needs a simple category first parameter named self or
prefixed with an underscore, with the stub file register exemption. -/
def validateMethod (isStubFile : Bool) (node : MFunctionNode)
    (ftype : MFunctionTypeFlags) : List MethodDiag :=
  if node.fname == "__new__" then
    let bad := match node.parameters.head? with
      | none => true
      | some p => match p.pname with
        | none => true
        | some nm => nm != "cls" && nm != "mcs"
    if bad then [MethodDiag.newShouldTakeCls] else []
  else if node.fname == "__init_subclass__" then
    let bad := match node.parameters.head? with
      | none => true
      | some p => match p.pname with
        | none => true
        | some nm => nm != "cls"
    if bad then [MethodDiag.initSubclassShouldTakeCls] else []
  else if ftype.isStaticMethod then
    match node.parameters.head? with
    | some p =>
      match p.pname with
      | some nm =>
        if nm == "self" || nm == "cls" then
          [MethodDiag.staticShouldNotTakeSelfOrCls]
        else []
      | none => []
    | none => []
  else if ftype.isClassMethod then
    let paramName := defaultedFirstParamName node
    if paramName != "cls" then
      if !isStubFile || (!(strStartsWith paramName "_") && paramName != "metacls") then
        [MethodDiag.classShouldTakeCls]
      else []
    else []
  else
    if node.decoratorCount == 0 then
      let paramName := defaultedFirstParamName node
      if firstParamIsSimpleB node && paramName != "self" &&
          !(strStartsWith paramName "_") then
        let isRegisterMethod := isStubFile && paramName == "cls" &&
          node.fname == "register"
        if !isRegisterMethod then [MethodDiag.instanceShouldTakeSelf] else []
      else []
    else []

/-! ## The unnecessary type test check (typeAnalyzer.ts lines 732 to
872) -/

/-- The inputs of the check drawn from the call node and the evaluator:
the callee name when the left expression is a name node, the argument
count, whether an assert statement occurs among the ancestors, and the
evaluator types of the two argument value expressions. -/
structure IsInstanceCallNode where
  calleeName : Option String
  argCount : Nat
  withinAssert : Bool
  arg0Type : PType
  arg1Type : PType

/-- The diagnostics the check can add, carrying the call form (true for
isinstance) and the printed first argument type. -/
inductive IsInstanceDiag : Type where
  | isNeverOf (isInstanceCheck : Bool) (arg0Type : PType) : IsInstanceDiag
  | isAlwaysOf (isInstanceCheck : Bool) (arg0Type : PType) : IsInstanceDiag

/-- The class list built from the second argument: a single class, or
the class type arguments of an object of the builtin Tuple class;
any other object contributes an empty list, and any other category
aborts the check (none). -/
def classTypeListOf : PType → Option (List ClassT)
  | PType.cls i b a => some [⟨i, b, a⟩]
  | PType.obj _ (some "Tuple") (some args) =>
    some (args.filterMap fun t => match t with
      | PType.cls ci cb ca => some ⟨ci, cb, ca⟩
      | _ => none)
  | PType.obj _ _ _ => some []
  | _ => none

/-- The inner filterType closure: for each filter class, keep the
variable type when it derives from the filter, else keep the filter when
it derives from the variable type; for isinstance wrap the kept classes
as objects, for issubclass keep them as classes. isDerivedFrom stands
for ClassType.isDerivedFrom, the nominal derivation test on class
identities (spec section 9), which lives outside src. -/
def filterVarType (isDerivedFrom : Nat → Nat → Bool) (classTypeList : List ClassT)
    (isInstanceCheck : Bool) (varType : ClassT) : List PType :=
  let filteredTypes := classTypeList.foldl
    (fun acc filterT =>
      let filterIsSuperclass := isDerivedFrom varType.id filterT.id
      let filterIsSubclass := isDerivedFrom filterT.id varType.id
      if filterIsSuperclass then acc ++ [varType]
      else if filterIsSubclass then acc ++ [filterT]
      else acc)
    []
  if !isInstanceCheck then filteredTypes.map ClassT.toClsType
  else filteredTypes.map ClassT.toObjType

/-- The narrowed (filtered) type of the first argument: an object goes
through the filter for isinstance, a class for issubclass, and a union
filters its object (or class) members and recombines; a union holding
any Any or Unknown member aborts (none), as does any other shape. -/
def isInstanceNarrowedType (isDerivedFrom : Nat → Nat → Bool)
    (classTypeList : List ClassT) (isInstanceCheck : Bool)
    (arg0Type : PType) : Option PType :=
  match arg0Type with
  | PType.obj i b a =>
    if isInstanceCheck then
      some (combineTypes (filterVarType isDerivedFrom classTypeList true ⟨i, b, a⟩))
    else none
  | PType.cls i b a =>
    if !isInstanceCheck then
      some (combineTypes (filterVarType isDerivedFrom classTypeList false ⟨i, b, a⟩))
    else none
  | PType.union subtypes =>
    let foundAnyType := subtypes.any isAnyOrUnknown
    let remainingTypes := subtypes.flatMap fun t => match t with
      | PType.obj i b a =>
        if isInstanceCheck then filterVarType isDerivedFrom classTypeList true ⟨i, b, a⟩
        else []
      | PType.cls i b a =>
        if !isInstanceCheck then filterVarType isDerivedFrom classTypeList false ⟨i, b, a⟩
        else []
      | _ => []
    if foundAnyType then none
    else some (combineTypes remainingTypes)
  | _ => none

/-- The first argument type after mapping type objects to their classes
over its subtypes, as the check computes it. -/
def isInstanceArg0Type (node : IsInstanceCallNode) : PType :=
  doForSubtypes transformTypeObjectToClass node.arg0Type

/-- Whether the call is the isinstance form (versus issubclass). -/
def isInstanceCheckOf (node : IsInstanceCallNode) : Bool :=
  node.calleeName == some "isinstance"

/-- Whether the callee is one of the two recognized names. -/
def isInstanceCalleeOk (node : IsInstanceCallNode) : Bool :=
  node.calleeName == some "isinstance" || node.calleeName == some "issubclass"

/-- Whether some member (the type itself when not a union) is Any or
Unknown. -/
def hasAnyOrUnknownSubtype (t : PType) : Bool :=
  (typeSubtypes t).any atomAnyOrUnknown

/-- The embedding of the private unnecessary type test check: abort when
the rule is off, when an assert statement encloses the call, when the
callee is not the bare name isinstance or issubclass, when the argument
count is not two, when the mapped first argument type is Any or Unknown,
when the class list cannot be built, or when the narrowing aborts.
Otherwise emit the never diagnostic when the narrowed type is Never, or
the always diagnostic when it is structurally equal to the first
argument type; else nothing. -/
def validateIsInstanceCallNecessary (isDerivedFrom : Nat → Nat → Bool)
    (setting : DiagLevel) (node : IsInstanceCallNode) : Option IsInstanceDiag :=
  if setting == DiagLevel.dnone then none
  else if node.withinAssert then none
  else if !(isInstanceCalleeOk node) then none
  else if node.argCount != 2 then none
  else
    let isInstanceCheck := isInstanceCheckOf node
    let arg0Type := isInstanceArg0Type node
    if isAnyOrUnknown arg0Type then none
    else match classTypeListOf node.arg1Type with
      | none => none
      | some classTypeList =>
        match isInstanceNarrowedType isDerivedFrom classTypeList isInstanceCheck arg0Type with
        | none => none
        | some filteredType =>
          if isNeverCategory filteredType then
            some (IsInstanceDiag.isNeverOf isInstanceCheck arg0Type)
          else if isTypeSame filteredType arg0Type then
            some (IsInstanceDiag.isAlwaysOf isInstanceCheck arg0Type)
          else none

/-! ## Theorems -/

/-- C1: for a reachable return statement whose enclosing function
declares a return type other than NoReturn, visitReturn specializes the
declared type and emits exactly one return type mismatch error, citing
the returned type (None when the expression is absent) and the
specialized declared type with the canAssignType addendum, exactly when
canAssignType(specializedDeclared, returned) fails. -/
theorem return_error_iff_canAssign_fails
    (canAssign : PType → PType → Bool)
    (canAssignAddendum : PType → PType → List String)
    (specialize : PType → PType) (node : ReturnNodeM) (declared : PType)
    (hreach : node.isNodeReachable = true)
    (hfn : node.hasEnclosingFunction = true)
    (hdecl : node.declaredReturnType = some declared)
    (hnr : isNoReturnType declared = false) :
    visitReturn canAssign canAssignAddendum specialize node =
      (if canAssign (specialize declared) (node.returnExprType.getD PType.noneT) then []
       else [ReturnDiag.returnTypeMismatch (node.returnExprType.getD PType.noneT)
         (specialize declared)
         (canAssignAddendum (specialize declared) (node.returnExprType.getD PType.noneT))]) := by
  cases hexpr : node.returnExprType <;>
    simp [visitReturn, hreach, hfn, hdecl, hnr, hexpr]

/-- Witness for C1: a concrete failing return, a string object returned
from a function declared to return an int object. -/
theorem return_error_iff_canAssign_fails_witness :
    visitReturn (fun _ _ => false) (fun _ _ => []) id
      ⟨some (PType.obj 1 (some "str") none), true, true,
        some (PType.obj 0 (some "int") none)⟩ =
      [ReturnDiag.returnTypeMismatch (PType.obj 1 (some "str") none)
        (PType.obj 0 (some "int") none) []] := by
  have h := return_error_iff_canAssign_fails (fun _ _ => false) (fun _ _ => [])
    id ⟨some (PType.obj 1 (some "str") none), true, true,
      some (PType.obj 0 (some "int") none)⟩
    (PType.obj 0 (some "int") none) rfl rfl rfl rfl
  simpa using h

/-- C2 counterexample: an unreachable return statement inside a function
whose declared return type is NoReturn produces no diagnostic, against
the claim that every return statement in such a function gets the
error. -/
theorem noReturn_return_unreachable_counterexample :
    isNoReturnType (PType.obj 2 (some "NoReturn") none) = true ∧
    visitReturn (fun _ _ => true) (fun _ _ => []) id
      ⟨none, false, true, some (PType.obj 2 (some "NoReturn") none)⟩ = [] :=
  ⟨rfl, rfl⟩

/-- C2 amended: for every reachable return statement inside a function
whose declared return type is NoReturn, the walker emits the NoReturn
error on that return statement. -/
theorem noReturn_return_error_amended
    (canAssign : PType → PType → Bool)
    (canAssignAddendum : PType → PType → List String)
    (specialize : PType → PType) (node : ReturnNodeM) (declared : PType)
    (hreach : node.isNodeReachable = true)
    (hfn : node.hasEnclosingFunction = true)
    (hdecl : node.declaredReturnType = some declared)
    (hnr : isNoReturnType declared = true) :
    visitReturn canAssign canAssignAddendum specialize node =
      [ReturnDiag.noReturnHasReturn] := by
  simp [visitReturn, hreach, hfn, hdecl, hnr]

/-- Witness for the amended C2: a concrete reachable bare return under a
NoReturn declaration. -/
theorem noReturn_return_error_amended_witness :
    visitReturn (fun _ _ => true) (fun _ _ => []) id
      ⟨none, true, true, some (PType.obj 2 (some "NoReturn") none)⟩ =
      [ReturnDiag.noReturnHasReturn] :=
  noReturn_return_error_amended (fun _ _ => true) (fun _ _ => []) id
    ⟨none, true, true, some (PType.obj 2 (some "NoReturn") none)⟩
    (PType.obj 2 (some "NoReturn") none) rfl rfl rfl rfl

/-- C3: when the flow node nearest to a parse node carries the
Unreachable flag, the overridden walk does not descend into the node:
no node of the subtree is visited and no diagnostic of the subtree is
emitted. -/
theorem unreachable_subtree_skipped (node : WNode) (inherited : Bool)
    (h : isCodeUnreachable node inherited = true) :
    walkNode node inherited = ([], []) := by
  cases node with
  | mk nid flowFlag ownDiags children => simp [walkNode, h]

/-- Witness for C3: a concrete node flagged Unreachable with a child and
diagnostics of its own, producing no visit and no diagnostic. -/
theorem unreachable_subtree_skipped_witness :
    walkNode (.mk 0 (some true) [7] [.mk 1 none [8] []]) false = ([], []) :=
  unreachable_subtree_skipped (.mk 0 (some true) [7] [.mk 1 none [8] []])
    false rfl

/-- C5: on a reachable yield inside a function with a declared yield
type other than NoReturn, the yielded type (None when the expression is
absent) is wrapped as an object of the Iterator class specialized to it
before requiring canAssignType(declaredYield, wrapped), while a
yield-from operand type goes to the same check unwrapped; a failed check
emits one error citing the adjusted yielded type and the declared yield
type; a NoReturn declared yield forbids the yield outright. -/
theorem yield_wraps_yieldFrom_does_not
    (canAssign : PType → PType → Bool)
    (canAssignAddendum : PType → PType → List String) :
    (∀ (iterId : Nat) (iterBn : Option String) (iterArgs : Option (List PType))
        (ynode : YieldNodeM) (d : PType),
      ynode.isNodeReachable = true → ynode.declaredYieldType = some d →
      isNoReturnType d = false →
      visitYieldM canAssign canAssignAddendum (PType.cls iterId iterBn iterArgs) ynode =
        (if canAssign d (PType.obj iterId iterBn (some [ynode.yieldExprType.getD PType.noneT]))
         then []
         else [YieldDiag.yieldTypeMismatch
           (PType.obj iterId iterBn (some [ynode.yieldExprType.getD PType.noneT])) d
           (canAssignAddendum d
             (PType.obj iterId iterBn (some [ynode.yieldExprType.getD PType.noneT])))]))
    ∧ (∀ (yfnode : YieldFromNodeM) (d : PType),
      yfnode.isNodeReachable = true → yfnode.declaredYieldType = some d →
      isNoReturnType d = false →
      visitYieldFromM canAssign canAssignAddendum yfnode =
        (if canAssign d yfnode.operandType then []
         else [YieldDiag.yieldTypeMismatch yfnode.operandType d
           (canAssignAddendum d yfnode.operandType)]))
    ∧ (∀ (iteratorType : PType) (ynode : YieldNodeM) (d : PType),
      ynode.isNodeReachable = true → ynode.declaredYieldType = some d →
      isNoReturnType d = true →
      visitYieldM canAssign canAssignAddendum iteratorType ynode =
        [YieldDiag.noReturnHasYield]) := by
  refine ⟨?_, ?_, ?_⟩
  · intro iterId iterBn iterArgs ynode d hreach hdecl hnr
    cases hexpr : ynode.yieldExprType <;>
      simp [visitYieldM, validateYieldType, hreach, hdecl, hnr, hexpr]
  · intro yfnode d hreach hdecl hnr
    simp [visitYieldFromM, validateYieldType, hreach, hdecl, hnr]
  · intro iteratorType ynode d hreach hdecl hnr
    cases iteratorType <;>
      simp [visitYieldM, validateYieldType, hreach, hdecl, hnr]

/-- Witness for C5: a concrete yield of an int object wrapped in
Iterator and a concrete yield-from passing a generator object through,
both failing the assignability check. -/
theorem yield_wraps_yieldFrom_does_not_witness :
    visitYieldM (fun _ _ => false) (fun _ _ => [])
      (PType.cls 3 (some "Iterator") none)
      ⟨some (PType.obj 0 (some "int") none), true, some (PType.obj 1 (some "str") none)⟩ =
      [YieldDiag.yieldTypeMismatch
        (PType.obj 3 (some "Iterator") (some [PType.obj 0 (some "int") none]))
        (PType.obj 1 (some "str") none) []] ∧
    visitYieldFromM (fun _ _ => false) (fun _ _ => [])
      ⟨PType.obj 4 (some "Generator") none, true, some (PType.obj 1 (some "str") none)⟩ =
      [YieldDiag.yieldTypeMismatch (PType.obj 4 (some "Generator") none)
        (PType.obj 1 (some "str") none) []] := by
  have h := yield_wraps_yieldFrom_does_not (fun _ _ => false) (fun _ _ => [])
  constructor
  · have h1 := h.1 3 (some "Iterator") none
      ⟨some (PType.obj 0 (some "int") none), true, some (PType.obj 1 (some "str") none)⟩
      (PType.obj 1 (some "str") none) rfl rfl rfl
    simpa using h1
  · have h2 := h.2.1
      ⟨PType.obj 4 (some "Generator") none, true, some (PType.obj 1 (some "str") none)⟩
      (PType.obj 1 (some "str") none) rfl rfl rfl
    simpa using h2

/-- Helper: inside one statement list, the bad statement errors are
exactly the identities of the substatements whose kind is not allowed. -/
theorem tdStatementListErrors (subs : List SmallStmt) :
    (subs.flatMap fun substatement =>
      if substatement.kind != SmallKind.typeAnnotationK &&
          substatement.kind != SmallKind.ellipsisK &&
          substatement.kind != SmallKind.stringListK &&
          substatement.kind != SmallKind.passK then
        [substatement.sid]
      else []) =
    (subs.filter fun ss => !(allowedInTypedDict ss.kind)).map SmallStmt.sid := by
  induction subs with
  | nil => rfl
  | cons ss rest ih =>
    simp only [List.flatMap_cons, List.filter_cons]
    rw [ih]
    cases hk : ss.kind <;> simp [hk, allowedInTypedDict]

/-- Helper: one suite statement produces exactly the error sites of the
specification description. -/
theorem tdStatementErrorsEq (statement : TDStatement) :
    (if statement.unreachable then []
     else match statement.body with
       | .statementList subs =>
         subs.flatMap fun substatement =>
           if substatement.kind != SmallKind.typeAnnotationK &&
               substatement.kind != SmallKind.ellipsisK &&
               substatement.kind != SmallKind.stringListK &&
               substatement.kind != SmallKind.passK then
             [substatement.sid]
           else []
       | .compound cid => [cid]) = tdStatementSpecErrors statement := by
  cases statement with
  | mk unreachable body =>
    cases unreachable with
    | true => simp [tdStatementSpecErrors]
    | false =>
      cases body with
      | statementList subs =>
        simpa [tdStatementSpecErrors] using tdStatementListErrors subs
      | compound cid => simp [tdStatementSpecErrors]

/-- C6: the TypedDict suite validation emits, in walk order, exactly one
bad statement error for each statement that is not unreachable and not
of an allowed kind (type annotation, string, ellipsis, pass): one per
disallowed substatement of a statement list and one per compound
statement, and none for allowed substatements or unreachable
statements. -/
theorem typedDict_suite_errors_characterized (suite : List TDStatement) :
    validateTypedDictClassSuite suite = suite.flatMap tdStatementSpecErrors := by
  unfold validateTypedDictClassSuite
  congr 1
  funext statement
  exact tdStatementErrorsEq statement

/-- C7 counterexample: in a function scope the sweep reports an unused
variable named x, although x carries neither the private nor the
protected prefix, against the claim that such declarations are
reportable only under the prefix-based privacy rule. -/
theorem unused_privacy_counterexample :
    conditionallyReportUnusedSymbol
      ⟨DiagLevel.derror, DiagLevel.derror, DiagLevel.derror, DiagLevel.derror⟩
      "test.py" [] "x"
      ⟨1, false, [⟨DeclTypeM.variableD, ⟨DeclNodeKindM.nameK, "x", none, []⟩⟩]⟩
      ScopeTypeM.functionScope =
      [UnusedReport.unusedVariable DiagLevel.derror "x"] ∧
    claimIsPrivate "x" ScopeTypeM.functionScope = false := by
  refine ⟨by decide, by decide⟩

/-- C7 amended: a Variable, Parameter, Class or Function declaration is
reported as unused only if the symbol is private per isSymbolPrivate,
and a symbol is private exactly when its scope is a function or list
comprehension scope, or its name starts with the private prefix, or its
name starts with the protected prefix and the scope is not a class
scope. -/
theorem unused_privacy_amended :
    (∀ (settings : UnusedDiagSettings) (filePath : String) (nodeD : DeclNodeM),
      conditionallyReportUnusedDeclaration settings filePath
        ⟨DeclTypeM.variableD, nodeD⟩ false = [] ∧
      conditionallyReportUnusedDeclaration settings filePath
        ⟨DeclTypeM.parameterD, nodeD⟩ false = [] ∧
      conditionallyReportUnusedDeclaration settings filePath
        ⟨DeclTypeM.classD, nodeD⟩ false = [] ∧
      conditionallyReportUnusedDeclaration settings filePath
        ⟨DeclTypeM.functionD, nodeD⟩ false = []) ∧
    (∀ (nameValue : String) (scopeType : ScopeTypeM),
      isSymbolPrivate nameValue scopeType =
        ((scopeType == ScopeTypeM.functionScope ||
          scopeType == ScopeTypeM.listComprehensionScope) ||
          claimIsPrivate nameValue scopeType)) := by
  constructor
  · intro settings filePath nodeD
    refine ⟨rfl, rfl, rfl, rfl⟩
  · intro nameValue scopeType
    cases scopeType <;>
      cases hpriv : isPrivateName nameValue <;>
        cases hprot : isProtectedName nameValue <;>
          simp [isSymbolPrivate, claimIsPrivate, hpriv, hprot]

/-- C8 counterexample: a plain import-as alias declaration is reported
even in a file whose path ends with the generated code suffix, and even
when it imports the __future__ module, against the claimed blanket
suppression. -/
theorem unused_import_suppression_counterexample :
    strEndsWith "scripts/foo_pb2.py" "_pb2.py" = true ∧
    conditionallyReportUnusedDeclaration
      ⟨DiagLevel.derror, DiagLevel.derror, DiagLevel.derror, DiagLevel.derror⟩
      "scripts/foo_pb2.py"
      ⟨DeclTypeM.aliasD, ⟨DeclNodeKindM.importAsK, "", none, ["os"]⟩⟩ false =
      [UnusedReport.unusedImportMultipart DiagLevel.derror ["os"]] ∧
    conditionallyReportUnusedDeclaration
      ⟨DiagLevel.derror, DiagLevel.derror, DiagLevel.derror, DiagLevel.derror⟩
      "main.py"
      ⟨DeclTypeM.aliasD, ⟨DeclNodeKindM.importAsK, "", none, ["__future__"]⟩⟩ false =
      [UnusedReport.unusedImportMultipart DiagLevel.derror ["__future__"]] := by
  refine ⟨by decide, by decide, by decide⟩

/-- C8 amended: the suppression applies only to import-from-as alias
declarations: their report is suppressed exactly when the from-module
name is nonempty and either its first part is __future__ or the file
path ends with the generated code suffix; an import-as alias
declaration is reported the same way whatever the file path. -/
theorem unused_import_suppression_amended :
    (∀ (settings : UnusedDiagSettings) (filePath nm : String)
        (aliasName : Option String) (parts : List String) (isPrivate : Bool),
      conditionallyReportUnusedDeclaration settings filePath
        ⟨DeclTypeM.aliasD, ⟨DeclNodeKindM.importFromAsK, nm, aliasName, parts⟩⟩
        isPrivate =
        (match parts with
         | [] => [UnusedReport.unusedImport settings.reportUnusedImport
             (aliasName.getD nm)]
         | p :: _ =>
           if p == "__future__" || strEndsWith filePath "_pb2.py" then []
           else [UnusedReport.unusedImport settings.reportUnusedImport
             (aliasName.getD nm)])) ∧
    (∀ (settings : UnusedDiagSettings) (filePath filePath2 nm : String)
        (aliasName : Option String) (parts : List String) (isPrivate : Bool),
      conditionallyReportUnusedDeclaration settings filePath
        ⟨DeclTypeM.aliasD, ⟨DeclNodeKindM.importAsK, nm, aliasName, parts⟩⟩
        isPrivate =
      conditionallyReportUnusedDeclaration settings filePath2
        ⟨DeclTypeM.aliasD, ⟨DeclNodeKindM.importAsK, nm, aliasName, parts⟩⟩
        isPrivate) := by
  constructor
  · intro settings filePath nm aliasName parts isPrivate
    cases parts with
    | nil => rfl
    | cons p rest =>
      by_cases hfut : p = "__future__"
      · subst hfut
        simp [conditionallyReportUnusedDeclaration]
      · cases hpb : strEndsWith filePath "_pb2.py" <;>
          simp [conditionallyReportUnusedDeclaration, hfut, hpb]
  · intro settings filePath filePath2 nm aliasName parts isPrivate
    cases aliasName <;> cases parts <;> rfl

/-- C9 counterexample: an undecorated instance method with an empty
parameter list gets the missing self error although it has no first
parameter at all, against the claim that the error appears exactly when
a first parameter of simple category with a non-self, non-underscore
name exists. -/
theorem instance_method_self_counterexample :
    validateMethod false ⟨"f", [], 0⟩ ⟨false, false⟩ =
      [MethodDiag.instanceShouldTakeSelf] ∧
    (⟨"f", [], 0⟩ : MFunctionNode).parameters.head? = none :=
  ⟨rfl, rfl⟩

/-- C9 amended: for a function nested in a class, not named __new__ or
__init_subclass__ and neither a static nor a class method, the missing
self error appears exactly when the function has no decorators, its
first parameter counts as simple (vacuously when absent), its first
parameter name, the empty string when absent, is neither self nor
underscore-prefixed, and the stub file register exemption does not
apply; any decorator suppresses the rule. -/
theorem instance_method_self_amended (isStubFile : Bool)
    (node : MFunctionNode) (ftype : MFunctionTypeFlags)
    (h1 : (node.fname == "__new__") = false)
    (h2 : (node.fname == "__init_subclass__") = false)
    (h3 : ftype.isStaticMethod = false)
    (h4 : ftype.isClassMethod = false) :
    validateMethod isStubFile node ftype =
      (if (node.decoratorCount == 0) && firstParamIsSimpleB node &&
          (defaultedFirstParamName node != "self") &&
          !(strStartsWith (defaultedFirstParamName node) "_") &&
          !(isStubFile && (defaultedFirstParamName node == "cls") &&
            (node.fname == "register"))
       then [MethodDiag.instanceShouldTakeSelf] else []) := by
  cases hdec : node.decoratorCount == 0 <;>
    cases hsimple : firstParamIsSimpleB node <;>
      cases hself : defaultedFirstParamName node == "self" <;>
        cases hunder : strStartsWith (defaultedFirstParamName node) "_" <;>
          cases hreg : isStubFile && (defaultedFirstParamName node == "cls") &&
              (node.fname == "register") <;>
            simp [validateMethod, h1, h2, h3, h4, hdec, hsimple, hself, hunder,
              hreg]

/-- Witness for the amended C9: a concrete undecorated method whose
first parameter is a simple one named x, getting the error. -/
theorem instance_method_self_amended_witness :
    validateMethod false ⟨"m", [⟨some "x", ParamCategoryM.simple⟩], 0⟩
      ⟨false, false⟩ = [MethodDiag.instanceShouldTakeSelf] := by
  have h := instance_method_self_amended false
    ⟨"m", [⟨some "x", ParamCategoryM.simple⟩], 0⟩ ⟨false, false⟩ rfl rfl rfl rfl
  rw [h]
  decide

/-- C10: when the analyzed file is a stub file, the post convergence
symbol table validation returns immediately, so the sweep emits no
unused report at all, whatever the diagnostic settings, accessed set
and recorded scopes. -/
theorem stub_file_no_unused_reports (settings : UnusedDiagSettings)
    (filePath : String) (accessedSymbolIds : List Nat)
    (scopedNodes : List MScope) :
    validateSymbolTables true settings filePath accessedSymbolIds
      scopedNodes = [] :=
  rfl

/-- Helper: a type whose category is Any or Unknown satisfies the
recursive wildcard test. -/
theorem isAnyOrUnknown_of_atom (t : PType) (h : atomAnyOrUnknown t = true) :
    isAnyOrUnknown t = true := by
  cases t <;> simp [atomAnyOrUnknown, isAnyOrUnknown] at h ⊢

/-- Helper: a type with an Any or Unknown member is either wholly a
wildcard for the early guard, or makes the narrowing abort. -/
theorem narrowed_none_of_any (isDerivedFrom : Nat → Nat → Bool)
    (classTypeList : List ClassT) (isInstanceCheck : Bool) (t : PType)
    (hAny : hasAnyOrUnknownSubtype t = true) :
    isAnyOrUnknown t = true ∨
      isInstanceNarrowedType isDerivedFrom classTypeList isInstanceCheck t = none := by
  cases t with
  | anyT => exact Or.inl rfl
  | unknown => exact Or.inl rfl
  | union subtypes =>
    right
    simp only [hasAnyOrUnknownSubtype, typeSubtypes] at hAny
    have hfound : subtypes.any isAnyOrUnknown = true := by
      rcases List.any_eq_true.mp hAny with ⟨t, ht, hatom⟩
      exact List.any_eq_true.mpr ⟨t, ht, isAnyOrUnknown_of_atom t hatom⟩
    simp [isInstanceNarrowedType, hfound]
  | noneT =>
    exact absurd hAny (by simp [hasAnyOrUnknownSubtype, typeSubtypes, atomAnyOrUnknown])
  | never =>
    exact absurd hAny (by simp [hasAnyOrUnknownSubtype, typeSubtypes, atomAnyOrUnknown])
  | cls i b a =>
    exact absurd hAny (by simp [hasAnyOrUnknownSubtype, typeSubtypes, atomAnyOrUnknown])
  | obj i b a =>
    exact absurd hAny (by simp [hasAnyOrUnknownSubtype, typeSubtypes, atomAnyOrUnknown])

/-- C4: the unnecessary type test check emits a diagnostic only for call
nodes whose callee is the bare name isinstance or issubclass, with
exactly two arguments, not inside an assert; it emits nothing when some
member of the mapped first argument type is Any or Unknown; and when the
guards pass, the class list is built and the narrowing applies, it emits
the never diagnostic exactly when the narrowed type is Never and the
always diagnostic exactly when the narrowed type is not Never and is
structurally equal to the first argument type. -/
theorem isinstance_check_characterized (isDerivedFrom : Nat → Nat → Bool)
    (setting : DiagLevel) (node : IsInstanceCallNode) :
    (∀ d, validateIsInstanceCallNecessary isDerivedFrom setting node = some d →
      isInstanceCalleeOk node = true ∧ node.argCount = 2 ∧
        node.withinAssert = false) ∧
    (hasAnyOrUnknownSubtype (isInstanceArg0Type node) = true →
      validateIsInstanceCallNecessary isDerivedFrom setting node = none) ∧
    (∀ (classTypeList : List ClassT) (filteredType : PType),
      (setting == DiagLevel.dnone) = false →
      node.withinAssert = false →
      isInstanceCalleeOk node = true →
      (node.argCount != 2) = false →
      isAnyOrUnknown (isInstanceArg0Type node) = false →
      classTypeListOf node.arg1Type = some classTypeList →
      isInstanceNarrowedType isDerivedFrom classTypeList (isInstanceCheckOf node)
        (isInstanceArg0Type node) = some filteredType →
      (validateIsInstanceCallNecessary isDerivedFrom setting node =
          some (IsInstanceDiag.isNeverOf (isInstanceCheckOf node)
            (isInstanceArg0Type node)) ↔
        isNeverCategory filteredType = true) ∧
      (validateIsInstanceCallNecessary isDerivedFrom setting node =
          some (IsInstanceDiag.isAlwaysOf (isInstanceCheckOf node)
            (isInstanceArg0Type node)) ↔
        (isNeverCategory filteredType = false ∧
          isTypeSame filteredType (isInstanceArg0Type node) = true))) := by
  refine ⟨?_, ?_, ?_⟩
  · intro d h
    cases h1 : (setting == DiagLevel.dnone) <;>
      cases h2 : node.withinAssert <;>
        cases h3 : isInstanceCalleeOk node <;>
          cases h4 : node.argCount != 2 <;>
            simp [validateIsInstanceCallNecessary, h1, h2, h3, h4] at h <;>
              exact ⟨rfl, by simpa using h4, rfl⟩
  · intro hAny
    simp only [validateIsInstanceCallNecessary]
    split
    next => rfl
    next h1 =>
      split
      next => rfl
      next h2 =>
        split
        next => rfl
        next h3 =>
          split
          next => rfl
          next h4 =>
            split
            next => rfl
            next hw =>
              cases hcl : classTypeListOf node.arg1Type with
              | none => simp [hcl]
              | some classTypeList =>
                rcases narrowed_none_of_any isDerivedFrom classTypeList
                    (isInstanceCheckOf node) (isInstanceArg0Type node) hAny with
                  hleft | hright
                · exact absurd hleft hw
                · simp [hcl, hright]
  · intro classTypeList filteredType hset hassert hcallee hargs hnotany hclist hnarrow
    simp only [validateIsInstanceCallNecessary, hset, hassert, hcallee, hargs,
      hnotany, hclist, hnarrow, Bool.not_true, Bool.not_false, Bool.false_eq_true,
      ite_false, ite_true, if_false, if_true]
    cases hn : isNeverCategory filteredType <;>
      cases hs : isTypeSame filteredType (isInstanceArg0Type node) <;>
        simp [hn, hs]

/-- Witness for C4: a concrete isinstance call on an int object against
the int class, emitting the always diagnostic. -/
theorem isinstance_check_characterized_witness :
    validateIsInstanceCallNecessary (fun a b => a == b) DiagLevel.derror
      ⟨some "isinstance", 2, false, PType.obj 0 (some "int") none,
        PType.cls 0 (some "int") none⟩ =
      some (IsInstanceDiag.isAlwaysOf true (PType.obj 0 (some "int") none)) := by
  have h := (isinstance_check_characterized (fun a b => a == b) DiagLevel.derror
    ⟨some "isinstance", 2, false, PType.obj 0 (some "int") none,
      PType.cls 0 (some "int") none⟩).2.2
    [⟨0, some "int", none⟩] (PType.obj 0 (some "int") none)
    (by decide) rfl (by decide) (by decide) (by decide) rfl rfl
  exact h.2.mpr ⟨rfl, by decide⟩

end Pyright
